import Mathlib

/-!
Verification development for the recgov_daemon availability-polling daemon
(`daemon.py`). The definitions below are a shallow embedding of the program:
pure data is translated directly, Python list mutation is made explicit state
passing, Python exceptions become `Except`, and the external collaborators
(Selenium scraping, the RIDB facility service, the SMTP transport, the system
clock) are oracle parameters.
-/

/-- Modelled from the spec: the `Campground` class lives in `campground.py`,
which is not part of the analysed sources. Per the spec's data model a
Campground has a display `name`, a string `facilityId`, and a boolean
`available` flag that is initially false. -/
structure Campground where
  name : String
  facility_id : String
  available : Bool
deriving DecidableEq

/-- Modelled from the spec: the `url` locator is derived from `facilityId`
(the recreation.gov availability page for that facility, as shown in the
commented examples at the bottom of `daemon.py`). -/
def Campground.url (c : Campground) : String :=
  "https://www.recreation.gov/camping/campgrounds/" ++ c.facility_id ++ "/availability"

/-- Modelled from the spec: `Campground(name=..., facility_id=...)` constructs
an entity whose `available` flag starts out false. -/
def mkCampground (name facility_id : String) : Campground :=
  ⟨name, facility_id, false⟩

/-- A facility record as handled by `daemon.py`: a `(name, facility_id)`
pair of strings (`facility[0]` is the name, `facility[1]` the id). -/
abbrev Fac := String × String

/-- The error raised by `get_all_campgrounds_by_id` when both identifier
sources are `None` (a Python `ValueError`; the spec's configuration-error
taxonomy). -/
inductive DaemonError where
  | configurationError (msg : String)
deriving DecidableEq

/-- Result of `get_all_campgrounds_by_id`: the constructed registry together
with the final state of the caller's `user_facs` list object (the function
mutates that list in place via `user_facs.remove`). -/
structure RegistryResult where
  registry : List Campground
  userFacsAfter : Option (List Fac)
deriving DecidableEq

/-- Python's `list.remove(x)`: delete the first element equal to `x`.
(In `daemon.py` it is only invoked with an element known to be present.) -/
def listRemove : List Fac → Fac → List Fac
  | [], _ => []
  | y :: ys, x => if y = x then ys else y :: listRemove ys x

/-- One execution of the Python statement
`for u_fac in user_facs: if pred(u_fac): user_facs.remove(u_fac)`.
Python's list iterator keeps a bare index `i` that is incremented once per
iteration regardless of mutation, so removing the element at index `i`
shifts the next element into position `i` and the loop then skips it.
The fuel argument is only a structural-recursion device; `lst.length` steps
always suffice because `lst.length - i` strictly decreases each step. -/
def pyForRemoveGo (pred : Fac → Bool) : Nat → List Fac → Nat → List Fac
  | 0, lst, _ => lst
  | fuel + 1, lst, i =>
    if h : i < lst.length then
      let x := lst.get ⟨i, h⟩
      if pred x then pyForRemoveGo pred fuel (listRemove lst x) (i + 1)
      else pyForRemoveGo pred fuel lst (i + 1)
    else lst

/-- The remove-while-iterating loop of `get_all_campgrounds_by_id`
(lines 100–104 of `daemon.py`), started at index 0. -/
def pyForRemove (pred : Fac → Bool) (lst : List Fac) : List Fac :=
  pyForRemoveGo pred lst.length lst 0

/-- The registry-construction loop at the end of `get_all_campgrounds_by_id`:
one `Campground(name=facility[0], facility_id=facility[1])` per surviving
facility, in order. -/
def buildCampgrounds (facilities : List Fac) : List Campground :=
  facilities.map (fun f => mkCampground f.1 f.2)

/-- `get_all_campgrounds_by_id(user_facs, ridb_facs)` from `daemon.py`
(lines 84–119). `none` models a Python `None` argument. When both sources
are present it first runs the remove-while-iterating dedup loop over
`user_facs` (mutating it in place), then concatenates the remainder with
`ridb_facs` and builds one Campground per facility; with exactly one source
present that source is used as-is; with none it raises `ValueError`. -/
def get_all_campgrounds_by_id (user_facs ridb_facs : Option (List Fac)) :
    Except DaemonError RegistryResult :=
  match ridb_facs, user_facs with
  | some rf, some uf =>
    let ridb_facs_ids := rf.map Prod.snd
    let uf' := pyForRemove (fun u_fac => decide (u_fac.2 ∈ ridb_facs_ids)) uf
    .ok ⟨buildCampgrounds (uf' ++ rf), some uf'⟩
  | none, some uf => .ok ⟨buildCampgrounds uf, some uf⟩
  | some rf, none => .ok ⟨buildCampgrounds rf, none⟩
  | none, none =>
    .error (.configurationError
      "Both ridb_facs and user_facs are None; check input or ridb output.")

/-- The registry §4.1 of the spec describes: drop every user-provided entry
whose identifier also appears in the discovered source, then concatenate the
remainder with the discovered source. Stated from the spec's words, for
comparison with `get_all_campgrounds_by_id`. -/
def specBuildRegistry (U D : List Fac) : List Campground :=
  buildCampgrounds ((U.filter (fun f => decide (f.2 ∉ D.map Prod.snd))) ++ D)

/-! ### Basic lemmas about the registry loops -/

theorem listRemove_length_le (l : List Fac) (x : Fac) :
    (listRemove l x).length ≤ l.length := by
  induction l with
  | nil => simp [listRemove]
  | cons y ys ih =>
    by_cases h : y = x
    · simp [listRemove, h]
    · simp only [listRemove, h, if_neg, not_false_iff, List.length_cons]
      omega

theorem pyForRemoveGo_length_le (pred : Fac → Bool) :
    ∀ (fuel : Nat) (lst : List Fac) (i : Nat),
      (pyForRemoveGo pred fuel lst i).length ≤ lst.length := by
  intro fuel
  induction fuel with
  | zero => intro lst i; simp [pyForRemoveGo]
  | succ n ih =>
    intro lst i
    by_cases h : i < lst.length
    · simp only [pyForRemoveGo, dif_pos h]
      by_cases hp : pred (lst.get ⟨i, h⟩)
      · simp only [hp, if_pos]
        calc (pyForRemoveGo pred n (listRemove lst (lst.get ⟨i, h⟩)) (i + 1)).length
            ≤ (listRemove lst (lst.get ⟨i, h⟩)).length := ih _ _
          _ ≤ lst.length := listRemove_length_le _ _
      · simp only [hp, if_neg, Bool.false_eq_true, not_false_iff]
        exact ih lst (i + 1)
    · simp [pyForRemoveGo, dif_neg h]

/-! ### The polling cycle (`compare_availability`, lines 121–142) -/

/-- Failure of the external scrape collaborator. Modelled from the spec:
`scrape_campground` lives in `scrape_availability.py`, outside the analysed
sources; per §4.2 any transport/parse failure from it propagates as a
`ScrapeError`. -/
structure ScrapeError where
  msg : String
deriving DecidableEq

/-- The `for campground in campground_list` loop of `compare_availability`,
with a total (never-failing) scrape oracle on the campground's url.
Returns `(updated list, newly-available batch, scraped indices)`:
the registry entries after in-place mutation, the ephemeral `available`
list in append order, and the (0-based, offset by `i`) positions at which
`scrape_campground` was invoked. An entry with `available` already true is
skipped without a scrape; an entry that scrapes true is flipped to
`available := true` before being appended to the batch. -/
def cycleGo (scrape : String → Bool) : List Campground → Nat →
    List Campground × List Campground × List Nat
  | [], _ => ([], [], [])
  | c :: rest, i =>
    if c.available then
      let r := cycleGo scrape rest (i + 1)
      (c :: r.1, r.2.1, r.2.2)
    else if scrape c.url then
      let c' : Campground := ⟨c.name, c.facility_id, true⟩
      let r := cycleGo scrape rest (i + 1)
      (c' :: r.1, c' :: r.2.1, i :: r.2.2)
    else
      let r := cycleGo scrape rest (i + 1)
      (c :: r.1, r.2.1, i :: r.2.2)

/-- Observable outcome of one `compare_availability` call. `emails` counts
`send_email_alert` invocations made by this cycle. -/
structure CycleResult where
  updated : List Campground
  batch : List Campground
  scraped : List Nat
  emails : Nat
deriving DecidableEq

/-- `compare_availability(selenium_driver, campground_list, ...)` with a
total scrape oracle: run the pass over the full registry, then invoke
`send_email_alert` once iff the batch is non-empty (`if len(available) > 0`).
The batch is fully assembled before the single notifier call. -/
def compare_availability (scrape : String → Bool) (campground_list : List Campground) :
    CycleResult :=
  let r := cycleGo scrape campground_list 0
  ⟨r.1, r.2.1, r.2.2, if r.2.1.length > 0 then 1 else 0⟩

/-- The same loop with a fallible scrape oracle. `compare_availability`
contains no `try/except`, so the first `ScrapeError` raised by
`scrape_campground` aborts the pass and propagates to the caller; in that
case `send_email_alert` is never reached. -/
def cycleGoE (scrape : String → Except ScrapeError Bool) : List Campground → Nat →
    Except ScrapeError (List Campground × List Campground × List Nat)
  | [], _ => .ok ([], [], [])
  | c :: rest, i =>
    if c.available then
      match cycleGoE scrape rest (i + 1) with
      | .error e => .error e
      | .ok r => .ok (c :: r.1, r.2.1, r.2.2)
    else
      match scrape c.url with
      | .error e => .error e
      | .ok true =>
        let c' : Campground := ⟨c.name, c.facility_id, true⟩
        match cycleGoE scrape rest (i + 1) with
        | .error e => .error e
        | .ok r => .ok (c' :: r.1, c' :: r.2.1, i :: r.2.2)
      | .ok false =>
        match cycleGoE scrape rest (i + 1) with
        | .error e => .error e
        | .ok r => .ok (c :: r.1, r.2.1, i :: r.2.2)

/-- `compare_availability` under a fallible scrape collaborator: an
uncaught `ScrapeError` propagates out of the function (neither the rest of
the pass nor the email step runs). -/
def compare_availability_exc (scrape : String → Except ScrapeError Bool)
    (campground_list : List Campground) : Except ScrapeError CycleResult :=
  match cycleGoE scrape campground_list 0 with
  | .error e => .error e
  | .ok r => .ok ⟨r.1, r.2.1, r.2.2, if r.2.1.length > 0 then 1 else 0⟩

/-- Iterated polling cycles: the state of the registry after `n` cycles,
where cycle `k` uses scrape oracle `oracle k` (the external site's answers
during that cycle). The daemon's `while True` loop threads the mutated
registry from one cycle into the next. -/
def runCycles (oracle : Nat → String → Bool) (cl : List Campground) : Nat → List Campground
  | 0 => cl
  | n + 1 => (compare_availability (oracle n) (runCycles oracle cl n)).updated

/-- The spec's description of a cycle's ephemeral "newly available" list:
exactly the campgrounds that were unavailable and scraped true this cycle,
each flipped to available. Stated from the spec's words, for comparison
with `compare_availability`. -/
def newlyAvailable (scrape : String → Bool) (cl : List Campground) : List Campground :=
  (cl.filter (fun c => !c.available && scrape c.url)).map
    (fun c => ⟨c.name, c.facility_id, true⟩)

/-! ### Lemmas about the cycle -/

theorem cycleGo_length (scrape : String → Bool) :
    ∀ (cl : List Campground) (i : Nat), (cycleGo scrape cl i).1.length = cl.length := by
  intro cl
  induction cl with
  | nil => intro i; simp [cycleGo]
  | cons c rest ih =>
    intro i
    by_cases h : c.available
    · simp [cycleGo, h, ih]
    · by_cases hs : scrape c.url <;> simp [cycleGo, h, hs, ih]

theorem cycleGo_scraped_ge (scrape : String → Bool) :
    ∀ (cl : List Campground) (i x : Nat), x ∈ (cycleGo scrape cl i).2.2 → i ≤ x := by
  intro cl
  induction cl with
  | nil => intro i x hx; simp [cycleGo] at hx
  | cons c rest ih =>
    intro i x hx
    by_cases h : c.available
    · simp only [cycleGo, h, if_pos] at hx
      exact Nat.le_of_succ_le (ih (i + 1) x hx)
    · by_cases hs : scrape c.url <;>
        simp only [cycleGo, h, hs, Bool.false_eq_true, if_neg, if_pos,
          not_false_iff, List.mem_cons] at hx <;>
        rcases hx with rfl | hx
      · exact le_refl x
      · exact Nat.le_of_succ_le (ih (i + 1) x hx)
      · exact le_refl x
      · exact Nat.le_of_succ_le (ih (i + 1) x hx)

theorem cycleGo_avail (scrape : String → Bool) :
    ∀ (cl : List Campground) (i j : Nat) (c : Campground),
      cl[j]? = some c → c.available = true →
      (cycleGo scrape cl i).1[j]? = some c ∧ (i + j) ∉ (cycleGo scrape cl i).2.2 := by
  intro cl
  induction cl with
  | nil => intro i j c hj _; simp at hj
  | cons hd tl ih =>
    intro i j c hj ha
    cases j with
    | zero =>
      simp only [List.getElem?_cons_zero, Option.some.injEq] at hj
      subst hj
      simp only [cycleGo, ha, if_pos]
      refine ⟨by simp, ?_⟩
      intro hmem
      have := cycleGo_scraped_ge scrape tl (i + 1) (i + 0) hmem
      omega
    | succ j' =>
      simp only [List.getElem?_cons_succ] at hj
      have hrec := ih (i + 1) j' c hj ha
      by_cases h : hd.available
      · simp only [cycleGo, h, if_pos]
        refine ⟨by simpa using hrec.1, ?_⟩
        have : i + (j' + 1) = (i + 1) + j' := by omega
        rw [this]; exact hrec.2
      · have harith : i + (j' + 1) = (i + 1) + j' := by omega
        by_cases hs : scrape hd.url <;>
          simp only [cycleGo, h, hs, Bool.false_eq_true, if_neg, if_pos,
            not_false_iff, List.getElem?_cons_succ, List.mem_cons]
        · refine ⟨hrec.1, ?_⟩
          rintro (he | hmem)
          · omega
          · rw [harith] at hmem; exact hrec.2 hmem
        · refine ⟨hrec.1, ?_⟩
          rintro (he | hmem)
          · omega
          · rw [harith] at hmem; exact hrec.2 hmem

theorem runCycles_avail (oracle : Nat → String → Bool) (cl : List Campground)
    (j : Nat) (c : Campground) (hj : cl[j]? = some c) (ha : c.available = true) :
    ∀ n, (runCycles oracle cl n)[j]? = some c := by
  intro n
  induction n with
  | zero => simpa [runCycles] using hj
  | succ m ihm =>
    have := cycleGo_avail (oracle m) (runCycles oracle cl m) 0 j c ihm ha
    simpa [runCycles, compare_availability] using this.1

theorem cycleGoE_agrees (scrape : String → Bool) :
    ∀ (cl : List Campground) (i : Nat),
      cycleGoE (fun u => .ok (scrape u)) cl i = .ok (cycleGo scrape cl i) := by
  intro cl
  induction cl with
  | nil => intro i; simp [cycleGoE, cycleGo]
  | cons c rest ih =>
    intro i
    by_cases h : c.available
    · simp [cycleGoE, cycleGo, h, ih (i + 1)]
    · by_cases hs : scrape c.url <;> simp [cycleGoE, cycleGo, h, hs, ih (i + 1)]

theorem compare_availability_exc_agrees (scrape : String → Bool)
    (cl : List Campground) :
    compare_availability_exc (fun u => .ok (scrape u)) cl =
      .ok (compare_availability scrape cl) := by
  simp [compare_availability_exc, compare_availability, cycleGoE_agrees scrape cl 0]

theorem cycleGo_batch (scrape : String → Bool) :
    ∀ (cl : List Campground) (i : Nat),
      (cycleGo scrape cl i).2.1 = newlyAvailable scrape cl := by
  intro cl
  induction cl with
  | nil => intro i; simp [cycleGo, newlyAvailable]
  | cons c rest ih =>
    intro i
    by_cases h : c.available
    · simp [cycleGo, newlyAvailable, h, List.filter_cons, ih (i + 1)]
    · by_cases hs : scrape c.url <;>
        simp [cycleGo, newlyAvailable, h, hs, List.filter_cons, ih (i + 1)]

/-! ### The notifier (`send_email_alert`, lines 51–82) -/

/-- Failure of the outbound mail transport (authentication, network,
transport): everything covered by the single `try` block of
`send_email_alert`. -/
inductive MailError where
  | authError (msg : String)
  | networkError (msg : String)
  | transportError (msg : String)
deriving DecidableEq

/-- The alert message assembled by `send_email_alert` before dispatch:
From the credentials environment, To the argparse recipient, a subject
carrying the batch count, and a body built from the batch's structured
serialization. The serialization of a `CampgroundList` is modelled from the
spec (each element as its name, facility_id and available flag), since
`campground.py` is outside the analysed sources. -/
structure EmailMsg where
  sender : Option String
  recipient : String
  subject : String
  body : List (String × String × Bool)
deriving DecidableEq

/-- What a `send_email_alert` call did: whether `server.send_message`
succeeded, and whether the failure branch logged an error. The function
itself always returns normally (the `except Exception` clause catches every
dispatch failure). -/
structure SendOutcome where
  sent : Bool
  errorLogged : Bool
deriving DecidableEq

/-- The message-building part of `send_email_alert` (lines 66–72). -/
def buildAlertMessage (recipient : String) (gmailUser : Option String)
    (batch : List Campground) : EmailMsg :=
  ⟨gmailUser, recipient,
    "Alert for " ++ toString batch.length ++ " Available Campground on Recreation.gov",
    batch.map (fun c => (c.name, c.facility_id, c.available))⟩

/-- `send_email_alert(available_campgrounds)` from `daemon.py`: build the
message, then attempt dispatch through the SMTP transport oracle inside a
catch-all `try/except`. On failure the exception is logged and swallowed;
the function never raises, and the batch list it was handed is returned
unchanged (the function only reads it). -/
def send_email_alert (transport : EmailMsg → Except MailError Unit)
    (recipient : String) (gmailUser : Option String)
    (available_campgrounds : List Campground) : SendOutcome × List Campground :=
  match transport (buildAlertMessage recipient gmailUser available_campgrounds) with
  | .ok _ => (⟨true, false⟩, available_campgrounds)
  | .error _ => (⟨false, true⟩, available_campgrounds)

/-! ### Shutdown and the main loop (lines 32–49 and 166–221) -/

/-- The browser-automation session resource (a Selenium `WebDriver`). -/
structure WebDriver where
  id : Nat
deriving DecidableEq

/-- Observable effect of one `exit_gracefully` call: how many times
`close_this_driver.close()` was invoked, and the `sys.exit` status code. -/
structure GracefulExit where
  driverCloseCalls : Nat
  exitCode : Nat
deriving DecidableEq

/-- `exit_gracefully(signal_received, frame, close_this_driver=None)` from
`daemon.py` (lines 32–49): log (critically) which exit path was taken,
close the WebDriver only if one was passed, then `sys.exit(0)`. -/
def exit_gracefully (signal_received : Option Nat) (close_this_driver : Option WebDriver) :
    GracefulExit :=
  ⟨if close_this_driver.isSome then 1 else 0, 0⟩

/-- The SIGINT handler as actually registered at line 167:
`signal(SIGINT, exit_gracefully)` installs the two-argument form, so a
delivered SIGINT invokes `exit_gracefully(sig, frame)` with
`close_this_driver` left at its default `None` — whatever WebDriver the
main loop holds is not passed to it. -/
def sigintHandler (sig : Nat) : GracefulExit :=
  exit_gracefully (some sig) none

/-- Outcome of the daemon's `while True` loop when it exits: the
`exit_gracefully` effect and how many full polling cycles ran before the
date check tripped. -/
structure DaemonExit where
  exit : GracefulExit
  cyclesRun : Nat
deriving DecidableEq

/-- The `while True` loop of `__main__` (lines 216–221), from cycle
boundary `b` with `fuel` iterations of lookahead: at each boundary compare
the configured `start_date` against the wall clock (`now b`); if the date
has passed, call `exit_gracefully(None, None, driver)` before running that
cycle's checks, otherwise run `compare_availability` over the registry
(with cycle `b`'s scrape answers) and continue after the sleep. `none`
means the loop was still running when the fuel ran out. -/
def runFrom (start_date : Int) (now : Nat → Int) (oracle : Nat → String → Bool)
    (driver : Option WebDriver) : Nat → Nat → List Campground → Option DaemonExit
  | _, 0, _ => none
  | b, fuel + 1, cl =>
    if start_date < now b then some ⟨exit_gracefully none driver, b⟩
    else runFrom start_date now oracle driver (b + 1) fuel
      (compare_availability (oracle b) cl).updated

/-- The daemon main loop started at the first cycle boundary. -/
def runDaemon (start_date : Int) (now : Nat → Int) (oracle : Nat → String → Bool)
    (driver : Option WebDriver) (fuel : Nat) (cl : List Campground) : Option DaemonExit :=
  runFrom start_date now oracle driver 0 fuel cl

theorem runFrom_exit (start_date : Int) (now : Nat → Int) (oracle : Nat → String → Bool)
    (driver : Option WebDriver) :
    ∀ (k b fuel : Nat) (cl : List Campground),
      (∀ j, j < k → ¬ start_date < now (b + j)) → start_date < now (b + k) →
      k < fuel →
      runFrom start_date now oracle driver b fuel cl =
        some ⟨exit_gracefully none driver, b + k⟩ := by
  intro k
  induction k with
  | zero =>
    intro b fuel cl _ hk hf
    cases fuel with
    | zero => omega
    | succ f =>
      simp only [Nat.add_zero] at hk
      simp [runFrom, hk]
  | succ k' ih =>
    intro b fuel cl hbefore hk hf
    cases fuel with
    | zero => omega
    | succ f =>
      have h0 : ¬ start_date < now b := by
        have := hbefore 0 (Nat.succ_pos k')
        simpa using this
      simp only [runFrom, h0, if_neg, not_false_iff]
      have hb' : ∀ j, j < k' → ¬ start_date < now ((b + 1) + j) := by
        intro j hj
        have := hbefore (j + 1) (by omega)
        have harith : b + (j + 1) = (b + 1) + j := by omega
        rwa [harith] at this
      have hk' : start_date < now ((b + 1) + k') := by
        have harith : b + (k' + 1) = (b + 1) + k' := by omega
        rwa [harith] at hk
      have := ih (b + 1) f (compare_availability (oracle b) cl).updated hb' hk' (by omega)
      rw [this]
      congr 1
      simp
      omega

/-! ### Claims -/

/-- C1: the claimed dedup invariant — no two registry entries share a
`facilityId`, and an identifier listed by both sources survives under the
discovered source's name — fails on the code. Removing from `user_facs`
while iterating over it skips the element that shifts into the removed
slot, so with `U = [("A","1"),("B","2")]` and `D = [("C","1"),("D","2")]`
the entry `("B","2")` is never examined: the registry carries
`facility_id = "2"` twice, once under the user-provided name `B`. -/
theorem c1_dedup_invariant_fails :
    ∃ r : RegistryResult,
      get_all_campgrounds_by_id (some [("A", "1"), ("B", "2")])
          (some [("C", "1"), ("D", "2")]) = .ok r ∧
      (r.registry.map (fun c => c.facility_id)).count "2" = 2 ∧
      mkCampground "B" "2" ∈ r.registry ∧
      mkCampground "D" "2" ∈ r.registry :=
  ⟨⟨[mkCampground "B" "2", mkCampground "C" "1", mkCampground "D" "2"],
      some [("B", "2")]⟩, rfl, by decide, by decide, by decide⟩

/-- C2: availability is monotone per entity. If after `n` cycles the
campground at position `j` has `available = true`, then after every later
cycle it is still the very same entry (the flag is never reset), and cycle
`n + m` never invokes `scrape_campground` for position `j` (the skip
branch fires instead). -/
theorem c2_available_monotone_never_rescraped (oracle : Nat → String → Bool)
    (cl : List Campground) (n m j : Nat) (c : Campground)
    (hj : (runCycles oracle cl n)[j]? = some c) (ha : c.available = true) :
    (runCycles oracle cl (n + m))[j]? = some c ∧
    j ∉ (compare_availability (oracle (n + m)) (runCycles oracle cl (n + m))).scraped := by
  have hmem : (runCycles oracle cl (n + m))[j]? = some c := by
    induction m with
    | zero => simpa using hj
    | succ m' ihm =>
      have hstep := cycleGo_avail (oracle (n + m')) (runCycles oracle cl (n + m')) 0 j c ihm ha
      have harith : n + (m' + 1) = (n + m') + 1 := by omega
      rw [harith]
      simpa [runCycles, compare_availability] using hstep.1
  refine ⟨hmem, ?_⟩
  have hstep := cycleGo_avail (oracle (n + m)) (runCycles oracle cl (n + m)) 0 j c hmem ha
  simpa [compare_availability] using hstep.2

/-- Witness for C2 at a concrete input: a registry holding one
already-available campground; after one further cycle it is unchanged and
its index is absent from that cycle's scrape log. -/
theorem c2_witness :
    ((runCycles (fun _ _ => true) [⟨"A", "1", true⟩] 0)[0]? =
        some (⟨"A", "1", true⟩ : Campground)) ∧
    ((⟨"A", "1", true⟩ : Campground).available = true) ∧
    ((runCycles (fun _ _ => true) [⟨"A", "1", true⟩] (0 + 1))[0]? =
        some (⟨"A", "1", true⟩ : Campground) ∧
      0 ∉ (compare_availability ((fun _ _ => true) (0 + 1))
            (runCycles (fun _ _ => true) [⟨"A", "1", true⟩] (0 + 1))).scraped) :=
  ⟨by decide, by decide,
    c2_available_monotone_never_rescraped (fun _ _ => true) [⟨"A", "1", true⟩] 0 1 0
      ⟨"A", "1", true⟩ (by decide) (by decide)⟩

/-- C3: batch correctness. In every cycle the batch handed to the notifier
is exactly the campgrounds that transitioned false→true this cycle (in
registry order, each already flipped to `available = true` before being
appended), and `send_email_alert` is invoked exactly once when the batch is
non-empty and zero times when it is empty. -/
theorem c3_batch_correctness (scrape : String → Bool) (cl : List Campground) :
    (compare_availability scrape cl).batch = newlyAvailable scrape cl ∧
    (compare_availability scrape cl).emails =
      (if newlyAvailable scrape cl = [] then 0 else 1) ∧
    ∀ c ∈ (compare_availability scrape cl).batch, c.available = true := by
  refine ⟨?_, ?_, ?_⟩
  · simpa [compare_availability] using cycleGo_batch scrape cl 0
  · have hb := cycleGo_batch scrape cl 0
    simp only [compare_availability, hb]
    cases newlyAvailable scrape cl with
    | nil => simp
    | cons a l => simp
  · intro c hc
    have hmem : c ∈ newlyAvailable scrape cl := by
      have hb := cycleGo_batch scrape cl 0
      simpa [compare_availability, hb] using hc
    simp only [newlyAvailable, List.mem_map] at hmem
    obtain ⟨d, _, rfl⟩ := hmem
    rfl

/-- Witness for C3 at a concrete input: a two-entry registry where the
first entry transitions and the second stays unavailable. -/
theorem c3_witness :
    (compare_availability (fun u => u = (⟨"A", "1", false⟩ : Campground).url)
        [⟨"A", "1", false⟩, ⟨"B", "2", false⟩]).batch =
      newlyAvailable (fun u => u = (⟨"A", "1", false⟩ : Campground).url)
        [⟨"A", "1", false⟩, ⟨"B", "2", false⟩] ∧
    (compare_availability (fun u => u = (⟨"A", "1", false⟩ : Campground).url)
        [⟨"A", "1", false⟩, ⟨"B", "2", false⟩]).emails =
      (if newlyAvailable (fun u => u = (⟨"A", "1", false⟩ : Campground).url)
          [⟨"A", "1", false⟩, ⟨"B", "2", false⟩] = [] then 0 else 1) ∧
    ∀ c ∈ (compare_availability (fun u => u = (⟨"A", "1", false⟩ : Campground).url)
        [⟨"A", "1", false⟩, ⟨"B", "2", false⟩]).batch, c.available = true :=
  c3_batch_correctness (fun u => u = (⟨"A", "1", false⟩ : Campground).url)
    [⟨"A", "1", false⟩, ⟨"B", "2", false⟩]

/-- C4: absence handling. With both identifier sources `None` the function
raises the configuration error; with exactly one source present the result
is the registry built from that source alone, used as-is (and the caller's
`user_facs` list is left untouched). -/
theorem c4_absence_handling :
    get_all_campgrounds_by_id none none =
      .error (DaemonError.configurationError
        "Both ridb_facs and user_facs are None; check input or ridb output.") ∧
    (∀ u : List Fac,
      get_all_campgrounds_by_id (some u) none = .ok ⟨buildCampgrounds u, some u⟩) ∧
    (∀ d : List Fac,
      get_all_campgrounds_by_id none (some d) = .ok ⟨buildCampgrounds d, none⟩) :=
  ⟨rfl, fun _ => rfl, fun _ => rfl⟩

/-- Witness for C4 at concrete single-source inputs. -/
theorem c4_witness :
    get_all_campgrounds_by_id (some [("A", "1")]) none =
      .ok ⟨buildCampgrounds [("A", "1")], some [("A", "1")]⟩ ∧
    get_all_campgrounds_by_id none (some [("B", "2")]) =
      .ok ⟨buildCampgrounds [("B", "2")], none⟩ :=
  ⟨c4_absence_handling.2.1 [("A", "1")], c4_absence_handling.2.2 [("B", "2")]⟩

/-- C5: the claim that the registry is the dedup-filtered user entries
followed by the discovered entries fails on the code. With
`U = [("A","1"),("B","1")]` and `D = [("C","1")]` the spec-side
construction removes both user entries (both carry identifier "1", which D
lists), yielding just D's campground; the code's remove-while-iterating
loop skips `("B","1")` after removing `("A","1")`, so `("B","1")` survives
into the registry. The parts of the claim about order, one Campground per
surviving pair, and `available = false` do hold on this run. -/
theorem c5_dedup_then_concatenate_fails :
    get_all_campgrounds_by_id (some [("A", "1"), ("B", "1")]) (some [("C", "1")]) =
      .ok ⟨[mkCampground "B" "1", mkCampground "C" "1"], some [("B", "1")]⟩ ∧
    specBuildRegistry [("A", "1"), ("B", "1")] [("C", "1")] = [mkCampground "C" "1"] ∧
    ([mkCampground "B" "1", mkCampground "C" "1"] : List Campground) ≠
      [mkCampground "C" "1"] :=
  ⟨rfl, rfl, by decide⟩

/-- C6: date-boundary termination. If the configured start date is earlier
than the wall clock for the first time at cycle boundary `k`, the loop
calls `exit_gracefully(None, None, driver)` there — before running cycle
`k`'s checks, so exactly `k` cycles ran — and that call closes the driver
once and ends the process with exit status 0. -/
theorem c6_date_boundary_termination (start_date : Int) (now : Nat → Int)
    (oracle : Nat → String → Bool) (d : WebDriver) (cl : List Campground) (k fuel : Nat)
    (hbefore : ∀ j, j < k → ¬ start_date < now j) (hk : start_date < now k)
    (hf : k < fuel) :
    runDaemon start_date now oracle (some d) fuel cl =
      some ⟨exit_gracefully none (some d), k⟩ ∧
    exit_gracefully none (some d) = ⟨1, 0⟩ := by
  refine ⟨?_, rfl⟩
  have h := runFrom_exit start_date now oracle (some d) k 0 fuel cl
    (by simpa using hbefore) (by simpa using hk) hf
  simpa [runDaemon] using h

/-- Witness for C6: the clock is ahead of the start date at boundary 1 but
not at boundary 0, so exactly one cycle runs before the graceful exit. -/
theorem c6_witness :
    (∀ j, j < 1 → ¬ (0 : Int) < (fun b => if b = 0 then (-1 : Int) else 1) j) ∧
    ((0 : Int) < (fun b => if b = 0 then (-1 : Int) else 1) 1) ∧
    (runDaemon 0 (fun b => if b = 0 then (-1 : Int) else 1) (fun _ _ => false)
        (some ⟨0⟩) 2 [] = some ⟨exit_gracefully none (some ⟨0⟩), 1⟩ ∧
      exit_gracefully none (some ⟨0⟩) = ⟨1, 0⟩) :=
  ⟨by decide, by decide,
    c6_date_boundary_termination 0 (fun b => if b = 0 then (-1 : Int) else 1)
      (fun _ _ => false) ⟨0⟩ [] 1 2 (by decide) (by decide) (by decide)⟩

/-- C7: a mail-dispatch failure of any kind is caught by the catch-all
`except` clause of `send_email_alert`: the call returns normally with the
failure logged as an error and nothing sent, and the batch it was handed —
whose campgrounds were already flipped to `available = true` — comes back
unchanged. -/
theorem c7_mail_failure_swallowed (transport : EmailMsg → Except MailError Unit)
    (recipient : String) (gmailUser : Option String) (batch : List Campground)
    (e : MailError)
    (h : transport (buildAlertMessage recipient gmailUser batch) = .error e) :
    send_email_alert transport recipient gmailUser batch = (⟨false, true⟩, batch) := by
  simp [send_email_alert, h]

/-- Witness for C7: a transport that always fails, applied to a batch of
one newly-available campground. -/
theorem c7_witness :
    ((fun _ : EmailMsg =>
        (.error (MailError.transportError "connection refused") : Except MailError Unit))
      (buildAlertMessage "user@example.com" (some "sender@gmail.com") [⟨"A", "1", true⟩]) =
      .error (MailError.transportError "connection refused")) ∧
    send_email_alert
        (fun _ => .error (MailError.transportError "connection refused"))
        "user@example.com" (some "sender@gmail.com") [⟨"A", "1", true⟩] =
      (⟨false, true⟩, [⟨"A", "1", true⟩]) :=
  ⟨rfl, c7_mail_failure_swallowed
    (fun _ => .error (MailError.transportError "connection refused"))
    "user@example.com" (some "sender@gmail.com") [⟨"A", "1", true⟩]
    (MailError.transportError "connection refused") rfl⟩

/-- C8: the exactly-once release claim fails on the signal path.
`signal(SIGINT, exit_gracefully)` registers the handler without binding a
driver (the driver is only created later), so a delivered SIGINT (signal
number 2) runs `exit_gracefully` with `close_this_driver = None` and closes
nothing, even while the main loop holds a live WebDriver; only the
date-passed path `exit_gracefully(None, None, driver)` closes it. Both
paths exit with status 0 and the no-session call indeed does not raise. -/
theorem c8_sigint_path_never_closes_driver :
    sigintHandler 2 = ⟨0, 0⟩ ∧
    exit_gracefully none (some ⟨1⟩) = ⟨1, 0⟩ ∧
    exit_gracefully none none = ⟨0, 0⟩ :=
  ⟨rfl, rfl, rfl⟩

/-- C9: the recoverable-by-next-cycle claim fails on the code.
`compare_availability` wraps no `try/except` around `scrape_campground`,
so a `ScrapeError` from the checker (per the spec's §4.2 contract for the
external scrape collaborator) propagates out of the pass: the remaining
campgrounds are not visited, no email step runs, and the uncaught exception
escapes the `while True` loop instead of being logged as "not available
this cycle". -/
theorem c9_scrape_error_propagates :
    compare_availability_exc (fun _ => .error ⟨"connection reset by peer"⟩)
      [⟨"Kirk Creek", "233116", false⟩, ⟨"McGill", "231962", false⟩] =
      .error ⟨"connection reset by peer"⟩ :=
  rfl

/-- C10: when both sources are present, `get_all_campgrounds_by_id`
destructively mutates the caller's `user_facs` list while iterating over
it. If the head of `user_facs` carries an identifier that `ridb_facs`
lists, the list object the caller passed ends up strictly shorter, and the
registry is built from that mutated remainder concatenated with
`ridb_facs`. -/
theorem c10_user_facs_mutated_in_place (u : Fac) (rest ridb : List Fac)
    (h : u.2 ∈ ridb.map Prod.snd) :
    ∃ fs : List Fac,
      get_all_campgrounds_by_id (some (u :: rest)) (some ridb) =
        .ok ⟨buildCampgrounds (fs ++ ridb), some fs⟩ ∧
      fs.length < (u :: rest).length := by
  refine ⟨pyForRemove (fun f => decide (f.2 ∈ ridb.map Prod.snd)) (u :: rest), rfl, ?_⟩
  have hpred : (fun f : Fac => decide (f.2 ∈ ridb.map Prod.snd)) u = true := by
    simpa using h
  have step : pyForRemove (fun f : Fac => decide (f.2 ∈ ridb.map Prod.snd)) (u :: rest) =
      pyForRemoveGo (fun f : Fac => decide (f.2 ∈ ridb.map Prod.snd)) rest.length rest 1 := by
    show pyForRemoveGo _ (rest.length + 1) (u :: rest) 0 = _
    rw [pyForRemoveGo]
    rw [dif_pos (by simp : (0 : Nat) < (u :: rest).length)]
    simp [hpred, listRemove]
  rw [step]
  have hle := pyForRemoveGo_length_le
    (fun f : Fac => decide (f.2 ∈ ridb.map Prod.snd)) rest.length rest 1
  simp only [List.length_cons]
  omega

/-- Witness for C10: a single user-provided facility whose identifier the
discovered source also lists; the caller's one-element list is emptied. -/
theorem c10_witness :
    (("A", "1") : Fac).2 ∈ ([("C", "1")] : List Fac).map Prod.snd ∧
    (∃ fs : List Fac,
      get_all_campgrounds_by_id (some [("A", "1")]) (some [("C", "1")]) =
        .ok ⟨buildCampgrounds (fs ++ [("C", "1")]), some fs⟩ ∧
      fs.length < ([("A", "1")] : List Fac).length) :=
  ⟨by decide, c10_user_facs_mutated_in_place ("A", "1") [] [("C", "1")] (by decide)⟩
